import Mathlib

/-
  Verification development for the mimiqlink python client library.

  Shallow embedding of the authenticated-session core of the library:
  the credential store, the connect flows, the token refresher loop and
  the request/transfer layer, translated from

    - src/mimiqlink/connection.py          (legacy MimiqConnection)
    - src/src/mimiqlink/mimiqconnection.py (current MimiqConnection)
    - src/src/mimiqlink/abstractconnection.py
    - src/src/mimiqlink/planqkconnection.py

  Network I/O is modelled by an oracle (a function from outgoing calls to
  HTTP responses); every operation returns, besides its python result
  (normal return or raised exception), the final connection state and the
  exact list of network calls it performed, in order.  File-system writes
  performed by download operations are abstracted away (they do not feed
  back into any modelled behaviour).
-/

/-- JSON values, as produced by `response.json()`. -/
inductive JVal where
  | null
  | b (v : Bool)
  | s (v : String)
  | n (v : Int)
  | arr (vs : List JVal)
  | obj (fields : List (String × JVal))

/-- Python exceptions that the modelled code can raise.  The library defines a
single exception class `ConnectionError`; the spec's taxonomy
(AuthenticationError, NotAuthenticated, UploadError, RequestError,
ProtocolError, InvalidArgument) is realized by this one class, distinguished
only by its message.  `keyError`, `typeError`, `indexError` and
`attributeError` model the corresponding python builtins. -/
inductive PyError where
  | connectionError (msg : String)
  | keyError (key : String)
  | typeError (msg : String)
  | indexError
  | attributeError (msg : String)
deriving Repr, DecidableEq

/-- HTTP method of an outgoing call. -/
inductive Method where
  | get
  | post
deriving Repr, DecidableEq

/-- One outgoing network call (method and full URL). -/
structure NetCall where
  method : Method
  path : String
deriving Repr, DecidableEq

/-- An HTTP response as seen by the client: status code, headers, parsed JSON
body and raw content. -/
structure HttpResponse where
  status : Nat
  headers : List (String × String)
  body : JVal
  content : String

/-- The network oracle: what the remote server answers to each call. -/
def Server : Type := NetCall → HttpResponse

/-- First-match association-list lookup, the model of a python dict lookup
(server-produced JSON objects have distinct keys). -/
def jLookup : List (String × JVal) → String → Option JVal
  | [], _ => none
  | (k, v) :: rest, key => if k = key then some v else jLookup rest key

/-- Association-list lookup with a default, modelling `dict.get(key, default)`
on a value already known to be an object. -/
def jGetD (fields : List (String × JVal)) (key : String) (dflt : JVal) : JVal :=
  match jLookup fields key with
  | some v => v
  | none => dflt

/-- Python subscript `value[key]`: KeyError when the key is absent, TypeError
when the value is not a dict. -/
def pySubscript (v : JVal) (key : String) : Except PyError JVal :=
  match v with
  | JVal.obj fields =>
    match jLookup fields key with
    | some x => Except.ok x
    | none => Except.error (PyError.keyError key)
  | _ => Except.error (PyError.typeError "object is not subscriptable")

/-- Python `value.get(key, default)`: AttributeError when the value is not a
dict. -/
def pyGetD (v : JVal) (key : String) (dflt : JVal) : Except PyError JVal :=
  match v with
  | JVal.obj fields => Except.ok (jGetD fields key dflt)
  | _ => Except.error (PyError.attributeError "object has no attribute get")

/-- Python truthiness of a JSON value. -/
def pyTruthy : JVal → Bool
  | JVal.null => false
  | JVal.b v => v
  | JVal.s v => v != ""
  | JVal.n v => v != 0
  | JVal.arr vs => !vs.isEmpty
  | JVal.obj fields => !fields.isEmpty

/-- Python `str()` of a JSON value, as used by f-string interpolation.  The
container cases are never exercised by the claims and are approximated. -/
def pyStr : JVal → String
  | JVal.null => "None"
  | JVal.b true => "True"
  | JVal.b false => "False"
  | JVal.s v => v
  | JVal.n v => toString v
  | JVal.arr _ => "[...]"
  | JVal.obj _ => "\x7b...\x7d"

/-- Python `a > b` on JSON values: only number-to-number comparison succeeds;
anything else (in particular a `None` operand) raises TypeError. -/
def pyGt : JVal → JVal → Except PyError Bool
  | JVal.n a, JVal.n b => Except.ok (b < a)
  | _, _ => Except.error (PyError.typeError "unsupported operand types for comparison")

/-- Python `a != b` where `a` is a str and `b` an arbitrary value: values of
different types are simply unequal (no exception). -/
def pyStrNe (a : String) : JVal → Bool
  | JVal.s v => a != v
  | _ => true

/-- The `refresher_task` attribute: `None` before any connect, or a thread
object that is alive or has terminated. -/
inductive TaskRef where
  | noneTask
  | dead
  | alive
deriving Repr, DecidableEq

/-- The mutable state of a `MimiqConnection` object: base url, refresher
bookkeeping, the two tokens of the credential store, the session's
`Authorization` default header and the cached user limits. -/
structure ConnState where
  url : String
  refresher_task : TaskRef
  refresher_stop : Bool
  access_token : Option JVal
  refresh_token : Option JVal
  authHeader : Option String
  user_limits : Option JVal

/-- Default cloud URL of the legacy connection module. -/
def QPERFECT_CLOUD : String := "https://mimiq.qperfect.io/api"

/-- `MimiqConnection.__init__`: fresh state, no tokens, no refresher. -/
def initState (url : String) : ConnState :=
  { url := url
    refresher_task := TaskRef.noneTask
    refresher_stop := false
    access_token := none
    refresh_token := none
    authHeader := none
    user_limits := none }

/-- `MimiqConnection.checkAuth` (both variants): raise ConnectionError when no
access token is present. -/
def checkAuth (s : ConnState) : Except PyError Unit :=
  match s.access_token with
  | none => Except.error (PyError.connectionError "Not yet authenticated.")
  | some _ => Except.ok ()

/-- The session's Authorization header value written by
`__updateSessionHeaders`: an f-string, so a missing token renders as the
string None. -/
def bearerOf : Option JVal → String
  | none => "Bearer None"
  | some v => "Bearer " ++ pyStr v

/-- `MimiqConnection.__updateSessionHeaders`. -/
def updateSessionHeaders (s : ConnState) : ConnState :=
  { s with authHeader := some (bearerOf s.access_token) }

/-- Second half of `checkUserLimits`: the `enabledMaxExecutions` branch, which
guards the comparison by explicit not-None checks. -/
def checkMaxExecutions (l : JVal) : Except PyError Unit := do
  let en ← pyGetD l "enabledMaxExecutions" JVal.null
  if pyTruthy en then
    let used ← pyGetD l "usedExecutions" JVal.null
    let mx ← pyGetD l "maxExecutions" JVal.null
    match used, mx with
    | JVal.null, _ => pure ()
    | _, JVal.null => pure ()
    | u, m => do
      let _ ← pyGt u m
      pure ()
  else pure ()

/-- `MimiqConnection.checkUserLimits`: emits warnings only, but the
`enabledExecutionTime` branch compares without a not-None guard and can raise
TypeError. -/
def checkUserLimits (limits : Option JVal) : Except PyError Unit :=
  match limits with
  | none => Except.ok ()
  | some l => do
    let en ← pyGetD l "enabledExecutionTime" JVal.null
    if pyTruthy en then
      let used ← pyGetD l "usedExecutionTime" JVal.null
      let mx ← pyGetD l "maxExecutionTime" JVal.null
      let _ ← pyGt used mx
      checkMaxExecutions l
    else checkMaxExecutions l

/-- `MimiqConnection.__updateUserLimits`: authenticated GET of
`/users/limits`, caching the result and running the limit warnings. -/
def updateUserLimits (s : ConnState) (server : Server) :
    Except PyError Unit × ConnState × List NetCall :=
  match checkAuth s with
  | Except.error e => (Except.error e, s, [])
  | Except.ok _ =>
    let call : NetCall := { method := Method.get, path := s.url ++ "/users/limits" }
    let resp := server call
    if resp.status ≠ 200 then
      let code := resp.status
      (Except.error (PyError.connectionError
        ("Failed to retrieve user limits. Server responded with " ++ toString code)), s, [call])
    else
      let s1 := { s with user_limits := some resp.body }
      match checkUserLimits s1.user_limits with
      | Except.error e => (Except.error e, s1, [call])
      | Except.ok _ => (Except.ok (), s1, [call])

/-- The POST of `MimiqConnection.refresh` (endpoint `/access-token`). -/
def refreshCall (s : ConnState) : NetCall :=
  { method := Method.post, path := s.url ++ "/access-token" }

/-- `MimiqConnection.refresh`: POST the refresh token; non-200 raises
ConnectionError; then `tokens["token"]` is assigned to the access token and
`tokens["refreshToken"]` to the refresh token inside one lock-held section,
followed by the session-header and user-limit updates. -/
def refresh (s : ConnState) (server : Server) :
    Except PyError Bool × ConnState × List NetCall :=
  let call := refreshCall s
  let resp := server call
  if resp.status ≠ 200 then
    let code := resp.status
    (Except.error (PyError.connectionError
      ("Failed to refresh the access token. Server responded with " ++ toString code)), s, [call])
  else
    match pySubscript resp.body "token" with
    | Except.error e => (Except.error e, s, [call])
    | Except.ok tok =>
      let s1 := { s with access_token := some tok }
      match pySubscript resp.body "refreshToken" with
      | Except.error e => (Except.error e, s1, [call])
      | Except.ok rtok =>
        let s2 := { s1 with refresh_token := some rtok }
        let s3 := updateSessionHeaders s2
        match updateUserLimits s3 server with
        | (Except.error e, s4, t) => (Except.error e, s4, call :: t)
        | (Except.ok _, s4, t) => (Except.ok true, s4, call :: t)

/-- `MimiqConnection.__startRefresher`: stop and join any running refresher,
reset the stop flag, start a fresh (alive) refresher thread. -/
def startRefresher (s : ConnState) : ConnState :=
  { s with refresher_stop := false, refresher_task := TaskRef.alive }

/-- The POST of `MimiqConnection._weblogin` (endpoint `/sign-in`). -/
def signinCall (s : ConnState) : NetCall :=
  { method := Method.post, path := s.url ++ "/sign-in" }

/-- `MimiqConnection._weblogin`: POST credentials to `/sign-in`; non-200
raises ConnectionError with the server-reported reason; on 200 both tokens
are installed inside one lock-held section, then headers, user limits and the
refresher are set up. -/
def weblogin (s : ConnState) (server : Server) :
    Except PyError Unit × ConnState × List NetCall :=
  let call := signinCall s
  let resp := server call
  if resp.status ≠ 200 then
    match pyGetD resp.body "message" (JVal.s "Unknown error") with
    | Except.error e => (Except.error e, s, [call])
    | Except.ok reason =>
      let code := resp.status
      (Except.error (PyError.connectionError
        ("Authentication failed with status code " ++ toString code
          ++ " and reason: " ++ pyStr reason)), s, [call])
  else
    match pySubscript resp.body "token" with
    | Except.error e => (Except.error e, s, [call])
    | Except.ok tok =>
      let s1 := { s with access_token := some tok }
      match pySubscript resp.body "refreshToken" with
      | Except.error e => (Except.error e, s1, [call])
      | Except.ok rtok =>
        let s2 := { s1 with refresh_token := some rtok }
        let s3 := updateSessionHeaders s2
        match updateUserLimits s3 server with
        | (Except.error e, s4, t) => (Except.error e, s4, call :: t)
        | (Except.ok _, s4, t) => (Except.ok (), startRefresher s4, call :: t)

/-- `MimiqConnection.isOpen`, current variant (mimiqconnection.py): a
short-circuit conjunction, total. -/
def isOpen (s : ConnState) : Bool :=
  s.refresher_task != TaskRef.noneTask
    && s.refresher_task == TaskRef.alive
    && s.access_token.isSome

/-- `MimiqConnection.isOpen`, legacy variant (connection.py): the three
conjuncts are computed eagerly, so `b = self.refresher_task.is_alive()` is
evaluated even when the task is None, raising AttributeError. -/
def isOpenLegacy (s : ConnState) : Except PyError Bool :=
  let a := s.refresher_task != TaskRef.noneTask
  match s.refresher_task with
  | TaskRef.noneTask =>
    Except.error (PyError.attributeError "NoneType object has no attribute is_alive")
  | t =>
    let b := t == TaskRef.alive
    let c := s.access_token.isSome
    Except.ok (a && b && c)

/-- `MimiqConnection.close`, current variant (mimiqconnection.py): set the
stop flag, join the refresher only when it exists and is alive, then clear
both tokens. -/
def close (s : ConnState) : Except PyError Unit × ConnState :=
  let s1 := { s with refresher_stop := true }
  let s2 :=
    if s1.refresher_task != TaskRef.noneTask && s1.refresher_task == TaskRef.alive then
      { s1 with refresher_task := TaskRef.dead }
    else s1
  (Except.ok (), { s2 with access_token := none, refresh_token := none })

/-- `MimiqConnection.close`, legacy variant (connection.py): set the stop
flag, then call `self.refresher_task.join()` unconditionally — AttributeError
when the task is still None (a never-connected session). -/
def closeLegacy (s : ConnState) : Except PyError Unit × ConnState :=
  let s1 := { s with refresher_stop := true }
  match s1.refresher_task with
  | TaskRef.noneTask =>
    (Except.error (PyError.attributeError "NoneType object has no attribute join"), s1)
  | _ =>
    (Except.ok (),
      { s1 with refresher_task := TaskRef.dead, access_token := none, refresh_token := none })

/-- `MimiqConnection.connectToken`, current variant: close if open, install
the refresh token, run a synchronous refresh, then headers, limits and the
refresher. -/
def connectToken (s : ConnState) (server : Server) (token : JVal) :
    Except PyError Unit × ConnState × List NetCall :=
  let s0 := if isOpen s then (close s).2 else s
  let s1 := { s0 with refresh_token := some token }
  match refresh s1 server with
  | (Except.error e, s2, t) => (Except.error e, s2, t)
  | (Except.ok _, s2, t) =>
    let s3 := updateSessionHeaders s2
    match updateUserLimits s3 server with
    | (Except.error e, s4, t2) => (Except.error e, s4, t ++ t2)
    | (Except.ok _, s4, t2) => (Except.ok (), startRefresher s4, t ++ t2)

/-- `MimiqConnection.connectUser`, current variant: close if open, then the
password sign-in flow. -/
def connectUser (s : ConnState) (server : Server) :
    Except PyError Unit × ConnState × List NetCall :=
  let s0 := if isOpen s then (close s).2 else s
  weblogin s0 server

/-- Which connect flow `connect(*args)` dispatches to. -/
inductive ConnectFlow where
  | web
  | token
  | password
deriving Repr, DecidableEq

/-- `MimiqConnection.connect`, current variant (mimiqconnection.py):
already-open sessions short-circuit to a no-op returning self (`Except.ok
none`); otherwise dispatch on arity; any other arity raises. -/
def connect (s : ConnState) (arity : Nat) : Except PyError (Option ConnectFlow) :=
  if isOpen s then Except.ok none
  else if arity = 0 then Except.ok (some ConnectFlow.web)
  else if arity = 1 then Except.ok (some ConnectFlow.token)
  else if arity = 2 then Except.ok (some ConnectFlow.password)
  else Except.error (PyError.connectionError
    "Invalid number of arguments. Expected 0, 1 (token) or 2 (username, password).")

/-- `MimiqConnection.connect`, legacy variant (connection.py): same arity
dispatch but with no already-open guard — a flow is always invoked. -/
def connectLegacy (_s : ConnState) (arity : Nat) : Except PyError (Option ConnectFlow) :=
  if arity = 0 then Except.ok (some ConnectFlow.web)
  else if arity = 1 then Except.ok (some ConnectFlow.token)
  else if arity = 2 then Except.ok (some ConnectFlow.password)
  else Except.error (PyError.connectionError
    "Invalid number of arguments. Expected 0, 1 (token) or 2 (username, password).")

/-- How a modelled run of a refresher background loop ends: `running` when the
modelled schedule of intervals is exhausted with the loop still alive,
`exited` when the loop left via its stop-flag check (or, for PlanQK, its
token-is-None check), `crashed` when an exception escaped the loop body and
terminated the thread. -/
inductive LoopOutcome where
  | running
  | exited
  | crashed (e : PyError)
deriving Repr, DecidableEq

/-- `MimiqConnection.__refresherMain`: one list element per elapsed refresh
interval (the per-second sleeping is timing only and is abstracted).  Each
interval checks the stop flag, then calls `self.refresh()` with no
try/except: an exception raised by `refresh` propagates and terminates the
thread. -/
def refresherMain : ConnState → List Server → LoopOutcome × ConnState × List NetCall
  | s, [] => (LoopOutcome.running, s, [])
  | s, server :: rest =>
    if s.refresher_stop then (LoopOutcome.exited, s, [])
    else
      match refresh s server with
      | (Except.error e, s1, t1) => (LoopOutcome.crashed e, s1, t1)
      | (Except.ok _, s1, t1) =>
        match refresherMain s1 rest with
        | (o, s2, t2) => (o, s2, t1 ++ t2)

/-- A JWT-style token of the PlanQK gateway flow. -/
structure JWTtoken where
  access_token : JVal
  scope : JVal
  token_type : JVal
  expires_in : JVal

/-- The mutable state of a `PlanqkConnection` object (the consumer
credentials do not influence the modelled behaviour and are omitted). -/
structure PlanqkState where
  url : String
  token : Option JWTtoken
  refresher_stop : Bool
  refresher_task : TaskRef
  authHeader : Option String

/-- Gateway base URL of planqkconnection.py. -/
def PLANQK_API : String := "https://gateway.platform.planqk.de"

/-- The POST issued by `PlanqkConnection.get_planqk_token`. -/
def planqkTokenCall : NetCall :=
  { method := Method.post, path := PLANQK_API ++ "/token" }

/-- `PlanqkConnection.get_planqk_token`: POST the client credentials; non-200
raises ConnectionError; on 200 the four token fields are read by subscript. -/
def getPlanqkToken (server : Server) : Except PyError JWTtoken × List NetCall :=
  let call := planqkTokenCall
  let resp := server call
  if resp.status ≠ 200 then
    let code := resp.status
    (Except.error (PyError.connectionError
      ("Failed to get PlanQK token. Server responded with " ++ toString code)), [call])
  else
    match pySubscript resp.body "access_token" with
    | Except.error e => (Except.error e, [call])
    | Except.ok a =>
      match pySubscript resp.body "scope" with
      | Except.error e => (Except.error e, [call])
      | Except.ok sc =>
        match pySubscript resp.body "token_type" with
        | Except.error e => (Except.error e, [call])
        | Except.ok tt =>
          match pySubscript resp.body "expires_in" with
          | Except.error e => (Except.error e, [call])
          | Except.ok ei =>
            (Except.ok { access_token := a, scope := sc, token_type := tt, expires_in := ei },
              [call])

/-- `PlanqkConnection.__updateSessionHeaders`. -/
def planqkUpdateSessionHeaders (s : PlanqkState) : Except PyError PlanqkState :=
  match s.token with
  | none => Except.error (PyError.connectionError "Not yet authenticated.")
  | some t => Except.ok { s with authHeader := some ("Bearer " ++ pyStr t.access_token) }

/-- `PlanqkConnection.__refresherMain`: one list element per elapsed refresh
interval (80 percent of the token lifetime; timing abstracted).  Unlike the
MimiqConnection loop, the token renewal is wrapped in try/except: a failure
is logged and the loop continues with the next interval. -/
def planqkRefresherMain : PlanqkState → List Server → LoopOutcome × PlanqkState × List NetCall
  | s, [] => (LoopOutcome.running, s, [])
  | s, server :: rest =>
    match s.token with
    | none => (LoopOutcome.exited, s, [])
    | some _ =>
      if s.refresher_stop then (LoopOutcome.exited, s, [])
      else
        match getPlanqkToken server with
        | (Except.error _, t1) =>
          match planqkRefresherMain s rest with
          | (o, s2, t2) => (o, s2, t1 ++ t2)
        | (Except.ok tok, t1) =>
          let s1 := { s with token := some tok }
          match planqkUpdateSessionHeaders s1 with
          | Except.error _ =>
            match planqkRefresherMain s1 rest with
            | (o, s2, t2) => (o, s2, t1 ++ t2)
          | Except.ok s2 =>
            match planqkRefresherMain s2 rest with
            | (o, s3, t2) => (o, s3, t1 ++ t2)

/-- The POST of `MimiqConnection.request` (job submission). -/
def submitCall (s : ConnState) : NetCall :=
  { method := Method.post, path := s.url ++ "/request" }

/-- `MimiqConnection.request`: check auth, build the multipart payload
(abstracted: the scalar fields and upload streams do not feed back into the
modelled behaviour), POST it, fail on non-200, return the execution id. -/
def request (s : ConnState) (server : Server) (_emulatortype _name _label : String)
    (_timeout : Int) (_uploads : List String) :
    Except PyError JVal × List NetCall :=
  match checkAuth s with
  | Except.error e => (Except.error e, [])
  | Except.ok _ =>
    let call := submitCall s
    let resp := server call
    if resp.status ≠ 200 then
      let code := resp.status
      (Except.error (PyError.connectionError
        ("File upload failed with status code " ++ toString code)), [call])
    else
      match pySubscript resp.body "executionRequestId" with
      | Except.error e => (Except.error e, [call])
      | Except.ok v => (Except.ok v, [call])

/-- `MimiqConnection.stopexecution`. -/
def stopexecution (s : ConnState) (server : Server) (req : String) :
    Except PyError Unit × List NetCall :=
  match checkAuth s with
  | Except.error e => (Except.error e, [])
  | Except.ok _ =>
    let call : NetCall := { method := Method.post, path := s.url ++ "/stop-execution/" ++ req }
    let resp := server call
    if resp.status ≠ 200 then
      let code := resp.status
      (Except.error (PyError.connectionError
        ("Failed to stop the execution " ++ req ++ ". Server responded with "
          ++ toString code ++ ".")), [call])
    else (Except.ok (), [call])

/-- `MimiqConnection.deleteFiles`. -/
def deleteFiles (s : ConnState) (server : Server) (req : String) :
    Except PyError Unit × List NetCall :=
  match checkAuth s with
  | Except.error e => (Except.error e, [])
  | Except.ok _ =>
    let call : NetCall := { method := Method.post, path := s.url ++ "/delete-files/" ++ req }
    let resp := server call
    if resp.status ≠ 200 then
      let code := resp.status
      (Except.error (PyError.connectionError
        ("Failed to delete the files for " ++ req ++ ". Server responded with "
          ++ toString code ++ ".")), [call])
    else (Except.ok (), [call])

/-- The GET of `MimiqConnection.requestInfo`. -/
def infoCall (s : ConnState) (req : String) : NetCall :=
  { method := Method.get, path := s.url ++ "/request/" ++ req }

/-- `MimiqConnection.requestInfo`: authenticated GET of the job record. -/
def requestInfo (s : ConnState) (server : Server) (req : String) :
    Except PyError JVal × List NetCall :=
  match checkAuth s with
  | Except.error e => (Except.error e, [])
  | Except.ok _ =>
    let call := infoCall s req
    let resp := server call
    if resp.status ≠ 200 then
      let code := resp.status
      (Except.error (PyError.connectionError
        ("Failed to retrieve execution details for " ++ req ++ ". Server responded with "
          ++ toString code)), [call])
    else (Except.ok resp.body, [call])

/-- The query string built by `MimiqConnection.requests` from its keyword
arguments. -/
def buildQuery (kwargs : List (String × String)) : String :=
  kwargs.foldl (fun query kv =>
    if query = "" then query ++ "?" ++ kv.1 ++ "=" ++ kv.2
    else query ++ "&" ++ kv.1 ++ "=" ++ kv.2) ""

/-- The GET of `MimiqConnection.requests`. -/
def listCall (s : ConnState) (kwargs : List (String × String)) : NetCall :=
  { method := Method.get, path := s.url ++ "/request" ++ buildQuery kwargs }

/-- `MimiqConnection.requests`: authenticated GET of the request list,
returning `response.json()["executions"]["docs"]`. -/
def requests (s : ConnState) (server : Server) (kwargs : List (String × String)) :
    Except PyError JVal × List NetCall :=
  match checkAuth s with
  | Except.error e => (Except.error e, [])
  | Except.ok _ =>
    let call := listCall s kwargs
    let resp := server call
    if resp.status ≠ 200 then
      let code := resp.status
      (Except.error (PyError.connectionError
        ("Failed to retrieve the list of requests. Server responded with "
          ++ toString code)), [call])
    else
      match pySubscript resp.body "executions" with
      | Except.error e => (Except.error e, [call])
      | Except.ok ex =>
        match pySubscript ex "docs" with
        | Except.error e => (Except.error e, [call])
        | Except.ok docs => (Except.ok docs, [call])

/-- Iterating a JSON value as python does in a for loop: only arrays are
iterable here. -/
def pyIterList : JVal → Except PyError (List JVal)
  | JVal.arr vs => Except.ok vs
  | _ => Except.error (PyError.typeError "object is not iterable")

/-- The generator condition of `printRequests`:
`"status" in req and req["status"] == "NEW"` (a non-dict element contributes
false; the claims only exercise server-produced dict records). -/
def hasStatus (req : JVal) (st : String) : Bool :=
  match req with
  | JVal.obj fields =>
    match jLookup fields "status" with
    | some (JVal.s v) => v == st
    | some _ => false
    | none => false
  | _ => false

/-- The per-request block printed by `printRequests`: seven field lookups
(the subscripted ones raise KeyError when absent) and the tree-drawing
prefixes, which differ between the last request and the others. -/
def reqLines (isLast : Bool) (req : JVal) : Except PyError (List String) := do
  let idv ← pySubscript req "_id"
  let namev ← pySubscript req "name"
  let labelv ← pySubscript req "label"
  let statusv ← pySubscript req "status"
  let userv ← pySubscript req "user"
  let emailv ← pySubscript userv "email"
  let cdatev ← pySubscript req "creationDate"
  let rdatev ← pyGetD req "runningDate" (JVal.s "None")
  let ddatev ← pyGetD req "doneDate" (JVal.s "None")
  let p1 := if isLast then "└── " else "├── "
  let p2 := if isLast then "    " else "│   "
  pure [p1 ++ "Request " ++ pyStr idv,
    p2 ++ "├── Name: " ++ pyStr namev,
    p2 ++ "├── Label: " ++ pyStr labelv,
    p2 ++ "├── Status: " ++ pyStr statusv,
    p2 ++ "├── User Email: " ++ pyStr emailv,
    p2 ++ "├── Created Date: " ++ pyStr cdatev,
    p2 ++ "├── Running Date: " ++ pyStr rdatev,
    p2 ++ "└── Done Date: " ++ pyStr ddatev]

/-- The `for req in reqs[:-1]` loop of `printRequests`. -/
def reqLinesAll : List JVal → Except PyError (List String)
  | [] => Except.ok []
  | r :: rest => do
    let ls ← reqLines false r
    let more ← reqLinesAll rest
    pure (ls ++ more)

/-- `MimiqConnection.printRequests`: fetch the request list, print the
summary line, print all but the last request, then unconditionally index
`reqs[-1]` — an IndexError on an empty list.  The produced value is the list
of printed lines. -/
def printRequests (s : ConnState) (server : Server) (kwargs : List (String × String)) :
    Except PyError (List String) × List NetCall :=
  match requests s server kwargs with
  | (Except.error e, t) => (Except.error e, t)
  | (Except.ok docs, t) =>
    match pyIterList docs with
    | Except.error e => (Except.error e, t)
    | Except.ok reqs =>
      let numnew := (reqs.filter (fun r => hasStatus r "NEW")).length
      let numrunning := (reqs.filter (fun r => hasStatus r "RUNNING")).length
      let total := reqs.length
      let header := toString total ++ " jobs of which " ++ toString numnew
        ++ " NEW and " ++ toString numrunning ++ " RUNNING:"
      match reqLinesAll reqs.dropLast with
      | Except.error e => (Except.error e, t)
      | Except.ok mids =>
        match reqs.getLast? with
        | none => (Except.error PyError.indexError, t)
        | some last =>
          match reqLines true last with
          | Except.error e => (Except.error e, t)
          | Except.ok lasts => (Except.ok (header :: mids ++ lasts), t)

/-- Prefix test on character lists. -/
def listStartsWith : List Char → List Char → Bool
  | _, [] => true
  | [], _ :: _ => false
  | a :: as, b :: bs => a == b && listStartsWith as bs

/-- The suffix of the text following the first occurrence of `marker`, when
there is one. -/
def afterMarker (marker : List Char) : List Char → Option (List Char)
  | [] => none
  | a :: rest =>
    if listStartsWith (a :: rest) marker then some (List.drop marker.length (a :: rest))
    else afterMarker marker rest

/-- The model of `re.findall` with the quoted-filename pattern of
`downloadFile`: the greedy group spans from the first `filename="` marker to
the last quote of the string, and must be non-empty, so the result has at
most one element. -/
def extractFilenames (hdr : String) : List String :=
  match afterMarker "filename=\"".toList hdr.toList with
  | none => []
  | some rest =>
    match rest.reverse.dropWhile (fun c => c ≠ '"') with
    | [] => []
    | _ :: revCapture =>
      if revCapture.isEmpty then []
      else [String.mk revCapture.reverse]

/-- The GET of `MimiqConnection.downloadFile` for one file index. -/
def fileCall (s : ConnState) (req : String) (index : Nat) (source : String) : NetCall :=
  { method := Method.get,
    path := s.url ++ "/files/" ++ req ++ "/" ++ toString index ++ "?source=" ++ source }

/-- `MimiqConnection.downloadFile`: authenticated GET of one file; status of
300 or above raises ConnectionError; the filename is extracted by
`re.findall` from `response.headers.get("Content-Disposition")` — when the
header is absent, `get` yields None and `re.findall` raises TypeError; an
empty findall result makes the `[0]` subscript raise IndexError.  The write
of the body to destdir/filename is abstracted; the filename is returned. -/
def downloadFile (s : ConnState) (server : Server) (req : String) (index : Nat)
    (filetype : String) : Except PyError String × List NetCall :=
  match checkAuth s with
  | Except.error e => (Except.error e, [])
  | Except.ok _ =>
    let call := fileCall s req index filetype
    let resp := server call
    if 300 ≤ resp.status then
      let code := resp.status
      (Except.error (PyError.connectionError
        ("Failed to retrieve " ++ filetype ++ " files for " ++ req
          ++ ". Server responded with " ++ toString code)), [call])
    else
      match resp.headers.lookup "Content-Disposition" with
      | none => (Except.error (PyError.typeError "expected string or bytes-like object"), [call])
      | some hdr =>
        match extractFilenames hdr with
        | [] => (Except.error PyError.indexError, [call])
        | filename :: _ =>
          if filename = "" then
            (Except.error (PyError.connectionError
              "Something went wrong. Server is missing the filename"), [call])
          else (Except.ok filename, [call])

/-- The metadata field that `downloadFiles` consults for the file count. -/
def sourceFieldName (source : String) : String :=
  if source = "uploads" then "numberOfUploadedFiles" else "numberOfResultedFiles"

/-- The `for idx in range(nf)` loop of `downloadFiles`: sequential downloads,
an exception aborts the remaining iterations. -/
def dlLoop (s : ConnState) (server : Server) (req : String) (source : String) :
    List Nat → Except PyError (List String) × List NetCall
  | [] => (Except.ok [], [])
  | idx :: rest =>
    match downloadFile s server req idx source with
    | (Except.error e, t1) => (Except.error e, t1)
    | (Except.ok name, t1) =>
      match dlLoop s server req source rest with
      | (Except.error e, t2) => (Except.error e, t1 ++ t2)
      | (Except.ok names, t2) => (Except.ok (name :: names), t1 ++ t2)

/-- `MimiqConnection.downloadFiles`: check auth, fetch the job metadata, read
the file count from `numberOfUploadedFiles` when the source is "uploads" and
from `numberOfResultedFiles` otherwise (defaulting to 0 when absent), then
download indices `0..count-1` in order, collecting the filenames. -/
def downloadFiles (s : ConnState) (server : Server) (req : String) (source : String) :
    Except PyError (List String) × List NetCall :=
  match checkAuth s with
  | Except.error e => (Except.error e, [])
  | Except.ok _ =>
    match requestInfo s server req with
    | (Except.error e, t) => (Except.error e, t)
    | (Except.ok infos, t) =>
      match pyGetD infos (sourceFieldName source) (JVal.n 0) with
      | Except.error e => (Except.error e, t)
      | Except.ok nfv =>
        match nfv with
        | JVal.n nf =>
          match dlLoop s server req source (List.range nf.toNat) with
          | (r, t2) => (r, t ++ t2)
        | _ => (Except.error (PyError.typeError "range argument must be an integer"), t)

/-- `MimiqConnection.loadtoken`, current variant (mimiqconnection.py).
`filedata` models the outcome of reading and json-parsing the token file
(`none` when either fails).  The stored url is compared with the session's
configured url before `connectToken` is invoked; a mismatch raises ValueError
inside the try block, which the `except Exception` handler converts to
ConnectionError — before any network call. -/
def loadtoken (s : ConnState) (server : Server) (filedata : Option JVal) :
    Except PyError Unit × ConnState × List NetCall :=
  match filedata with
  | none => (Except.error (PyError.connectionError "Failed to read token file."), s, [])
  | some data =>
    match pyGetD data "url" (JVal.s "") with
    | Except.error _ =>
      (Except.error (PyError.connectionError "Failed to read token file."), s, [])
    | Except.ok savedUrl =>
      match pyGetD data "token" JVal.null with
      | Except.error _ =>
        (Except.error (PyError.connectionError "Failed to read token file."), s, [])
      | Except.ok token =>
        if pyStrNe s.url savedUrl then
          (Except.error (PyError.connectionError "Failed to read token file."), s, [])
        else
          match connectToken s server token with
          | (Except.error (PyError.connectionError _), s2, t) =>
            (Except.error (PyError.connectionError
              "Authentication failed. Unable to connect using the stored token."), s2, t)
          | (Except.error e, s2, t) => (Except.error e, s2, t)
          | (Except.ok _, s2, t) => (Except.ok (), s2, t)

/-- A present access token makes `checkAuth` succeed. -/
theorem checkAuth_of_isSome (s : ConnState) (h : s.access_token.isSome = true) :
    checkAuth s = Except.ok () := by
  unfold checkAuth
  cases hat : s.access_token with
  | none => rw [hat] at h; simp at h
  | some v => rfl

/-- A missing access token makes `checkAuth` raise. -/
theorem checkAuth_of_none (s : ConnState) (h : s.access_token = none) :
    checkAuth s = Except.error (PyError.connectionError "Not yet authenticated.") := by
  unfold checkAuth
  rw [h]

/-- `__updateUserLimits` never touches the access token. -/
theorem updateUserLimits_access_token (s : ConnState) (server : Server) :
    (updateUserLimits s server).2.1.access_token = s.access_token := by
  unfold updateUserLimits
  split
  · rfl
  · dsimp only
    split
    · rfl
    · split <;> rfl

/-- `__updateUserLimits` never touches the refresh token. -/
theorem updateUserLimits_refresh_token (s : ConnState) (server : Server) :
    (updateUserLimits s server).2.1.refresh_token = s.refresh_token := by
  unfold updateUserLimits
  split
  · rfl
  · dsimp only
    split
    · rfl
    · split <;> rfl

/-- A server for witnesses whose responses carry no usable content. -/
def noopServer : Server := fun _ =>
  { status := 200, headers := [], body := JVal.obj [], content := "" }

/-- A connection state as left by a successful connect flow: refresher alive,
both tokens present. -/
def openState : ConnState :=
  { url := QPERFECT_CLOUD
    refresher_task := TaskRef.alive
    refresher_stop := false
    access_token := some (JVal.s "at-0")
    refresh_token := some (JVal.s "rt-0")
    authHeader := some "Bearer at-0"
    user_limits := none }

/-- Claim C8 (confirmed): every authenticated operation — request (job
submission), requestInfo, requests, stopexecution, deleteFiles, downloadFile
and downloadFiles — raises the not-authenticated ConnectionError and performs
no network call when invoked on a session with no access credential. -/
theorem C8_theorem (s : ConnState) (server : Server)
    (emulatortype nm lbl req source : String) (timeout : Int)
    (uploads : List String) (index : Nat) (kwargs : List (String × String))
    (hna : s.access_token = none) :
    request s server emulatortype nm lbl timeout uploads
        = (Except.error (PyError.connectionError "Not yet authenticated."), [])
  ∧ requestInfo s server req
        = (Except.error (PyError.connectionError "Not yet authenticated."), [])
  ∧ requests s server kwargs
        = (Except.error (PyError.connectionError "Not yet authenticated."), [])
  ∧ stopexecution s server req
        = (Except.error (PyError.connectionError "Not yet authenticated."), [])
  ∧ deleteFiles s server req
        = (Except.error (PyError.connectionError "Not yet authenticated."), [])
  ∧ downloadFile s server req index source
        = (Except.error (PyError.connectionError "Not yet authenticated."), [])
  ∧ downloadFiles s server req source
        = (Except.error (PyError.connectionError "Not yet authenticated."), []) := by
  have hca := checkAuth_of_none s hna
  refine ⟨?_, ?_, ?_, ?_, ?_, ?_, ?_⟩ <;>
    simp [request, requestInfo, requests, stopexecution, deleteFiles,
      downloadFile, downloadFiles, hca]

/-- Witness for C8: the freshly constructed session rejects all seven
operations without any network call. -/
theorem C8_witness :
    request (initState QPERFECT_CLOUD) noopServer "CEMU" "nm" "lbl" 5 []
        = (Except.error (PyError.connectionError "Not yet authenticated."), [])
  ∧ requestInfo (initState QPERFECT_CLOUD) noopServer "req1"
        = (Except.error (PyError.connectionError "Not yet authenticated."), [])
  ∧ requests (initState QPERFECT_CLOUD) noopServer [("status", "NEW")]
        = (Except.error (PyError.connectionError "Not yet authenticated."), [])
  ∧ stopexecution (initState QPERFECT_CLOUD) noopServer "req1"
        = (Except.error (PyError.connectionError "Not yet authenticated."), [])
  ∧ deleteFiles (initState QPERFECT_CLOUD) noopServer "req1"
        = (Except.error (PyError.connectionError "Not yet authenticated."), [])
  ∧ downloadFile (initState QPERFECT_CLOUD) noopServer "req1" 0 "results"
        = (Except.error (PyError.connectionError "Not yet authenticated."), [])
  ∧ downloadFiles (initState QPERFECT_CLOUD) noopServer "req1" "results"
        = (Except.error (PyError.connectionError "Not yet authenticated."), []) :=
  C8_theorem (initState QPERFECT_CLOUD) noopServer "CEMU" "nm" "lbl" "req1" "results"
    5 [] 0 [("status", "NEW")] rfl

/-- Claim C10 (confirmed): when the server returns an empty request list,
`printRequests` raises IndexError (the unconditional `reqs[-1]` indexing)
after printing only the summary line, instead of returning a zero-job
summary. -/
theorem C10_theorem (s : ConnState) (server : Server) (kwargs : List (String × String))
    (h : requests s server kwargs = (Except.ok (JVal.arr []), [listCall s kwargs])) :
    printRequests s server kwargs = (Except.error PyError.indexError, [listCall s kwargs]) := by
  unfold printRequests
  rw [h]
  rfl

/-- A server answering every request-list query with zero jobs. -/
def emptyListServer : Server := fun _ =>
  { status := 200, headers := []
    body := JVal.obj [("executions", JVal.obj [("docs", JVal.arr [])])], content := "" }

/-- Witness for C10: an authenticated session printing an empty request list
hits the IndexError. -/
theorem C10_witness :
    printRequests openState emptyListServer []
      = (Except.error PyError.indexError, [listCall openState []]) :=
  C10_theorem openState emptyListServer [] rfl

/-- Claim C9 (confirmed): `downloadFiles` takes the file count from
`numberOfUploadedFiles` exactly when the source is "uploads" and from
`numberOfResultedFiles` for every other source; when the fetched metadata
lacks that field the count defaults to 0, so the call returns the empty list
and issues no per-file download call (only the metadata GET). -/
theorem C9_theorem :
    sourceFieldName "uploads" = "numberOfUploadedFiles"
  ∧ (∀ source : String, source ≠ "uploads" → sourceFieldName source = "numberOfResultedFiles")
  ∧ ∀ (s : ConnState) (server : Server) (req source : String) (fs : List (String × JVal)),
      s.access_token.isSome = true →
      requestInfo s server req = (Except.ok (JVal.obj fs), [infoCall s req]) →
      jLookup fs (sourceFieldName source) = none →
      downloadFiles s server req source = (Except.ok [], [infoCall s req]) := by
  refine ⟨rfl, ?_, ?_⟩
  · intro source h
    simp [sourceFieldName, h]
  · intro s server req source fs hauth hinfo hnone
    have hca := checkAuth_of_isSome s hauth
    unfold downloadFiles
    rw [hca, hinfo]
    simp [pyGetD, jGetD, hnone, dlLoop]

/-- A server whose job metadata reports no file-count field at all. -/
def noCountServer : Server := fun _ =>
  { status := 200, headers := [], body := JVal.obj [("_id", JVal.s "j1")], content := "" }

/-- Witness for C9: with metadata lacking `numberOfResultedFiles`, a
"results" download returns the empty list after just the metadata GET. -/
theorem C9_witness :
    sourceFieldName "results" = "numberOfResultedFiles"
  ∧ downloadFiles openState noCountServer "j1" "results"
      = (Except.ok [], [infoCall openState "j1"]) :=
  ⟨C9_theorem.2.1 "results" (by decide),
   C9_theorem.2.2 openState noCountServer "j1" "results" [("_id", JVal.s "j1")]
     rfl rfl rfl⟩

/-- Claim C7 (counterexample): in the legacy connection.py variant, the first
`close()` on a never-connected session already raises — `close` calls
`self.refresher_task.join()` unconditionally and the task is still None — so
`close()` is not idempotent-without-raising on any session. -/
theorem C7_counterexample :
    (closeLegacy (initState QPERFECT_CLOUD)).1
      = Except.error (PyError.attributeError "NoneType object has no attribute join") := rfl

/-- Claim C7 (amended): for the current variant (mimiqconnection.py), close()
is idempotent on every session — two successive calls both return without
raising, isOpen() is false and both tokens are cleared after each call; in
the legacy connection.py variant this holds only for sessions whose refresher
task exists, since close() on a never-connected session raises
AttributeError. -/
theorem C7_theorem (s : ConnState) :
    (close s).1 = Except.ok ()
  ∧ (close (close s).2).1 = Except.ok ()
  ∧ isOpen (close s).2 = false
  ∧ isOpen (close (close s).2).2 = false
  ∧ (close s).2.access_token = none
  ∧ (close s).2.refresh_token = none
  ∧ (close (close s).2).2.access_token = none
  ∧ (close (close s).2).2.refresh_token = none := by
  refine ⟨rfl, rfl, ?_, ?_, rfl, rfl, rfl, rfl⟩ <;> simp [close, isOpen]

/-- Claim C6 (counterexample): the legacy connection.py `connect` has no
already-open guard: on an open session a one-argument call still dispatches
to the token flow (with its network refresh) instead of being a no-op. -/
theorem C6_counterexample :
    isOpen openState = true
  ∧ connectLegacy openState 1 = Except.ok (some ConnectFlow.token) := ⟨rfl, rfl⟩

/-- Claim C6 (amended): for the current variant (mimiqconnection.py),
`connect(*args)` on an open session is a no-op returning the same session
without invoking any flow; otherwise it dispatches on arity (0 → browser,
1 → token, 2 → password) and any other arity raises the invalid-argument
ConnectionError.  The legacy connection.py variant performs the same arity
dispatch but without the already-open no-op guard. -/
theorem C6_theorem :
    (∀ (s : ConnState) (arity : Nat), isOpen s = true → connect s arity = Except.ok none)
  ∧ (∀ s : ConnState, isOpen s = false → connect s 0 = Except.ok (some ConnectFlow.web))
  ∧ (∀ s : ConnState, isOpen s = false → connect s 1 = Except.ok (some ConnectFlow.token))
  ∧ (∀ s : ConnState, isOpen s = false → connect s 2 = Except.ok (some ConnectFlow.password))
  ∧ (∀ (s : ConnState) (arity : Nat), isOpen s = false → 3 ≤ arity →
      connect s arity = Except.error (PyError.connectionError
        "Invalid number of arguments. Expected 0, 1 (token) or 2 (username, password).")) := by
  refine ⟨?_, ?_, ?_, ?_, ?_⟩
  · intro s arity hopen
    simp [connect, hopen]
  · intro s hcl
    simp [connect, hcl]
  · intro s hcl
    simp [connect, hcl]
  · intro s hcl
    simp [connect, hcl]
  · intro s arity hcl h3
    have h0 : ¬arity = 0 := by omega
    have h1 : ¬arity = 1 := by omega
    have h2 : ¬arity = 2 := by omega
    simp [connect, hcl, h0, h1, h2]

/-- Witness for C6: concrete dispatches — a no-op on the open session, the
token flow on a fresh session with one argument, the invalid-argument error
at arity 3. -/
theorem C6_witness :
    connect openState 1 = Except.ok none
  ∧ connect (initState QPERFECT_CLOUD) 1 = Except.ok (some ConnectFlow.token)
  ∧ connect (initState QPERFECT_CLOUD) 3 = Except.error (PyError.connectionError
      "Invalid number of arguments. Expected 0, 1 (token) or 2 (username, password).") :=
  ⟨C6_theorem.1 openState 1 rfl,
   C6_theorem.2.2.1 (initState QPERFECT_CLOUD) rfl,
   C6_theorem.2.2.2.2 (initState QPERFECT_CLOUD) 3 rfl (by norm_num)⟩

/-- Claim C4 (confirmed): loading a persisted token file whose stored url
differs from the session's configured base url fails with the library's
ConnectionError (the realization of the spec's AuthenticationError) and
performs no network call: the dispatched trace is empty and the state is
untouched. -/
theorem C4_theorem (s : ConnState) (server : Server) (fs : List (String × JVal))
    (hmismatch : pyStrNe s.url (jGetD fs "url" (JVal.s "")) = true) :
    loadtoken s server (some (JVal.obj fs))
      = (Except.error (PyError.connectionError "Failed to read token file."), s, []) := by
  unfold loadtoken
  simp [pyGetD, hmismatch]

/-- Witness for C4: a token file recorded against another server is rejected
with no network call. -/
theorem C4_witness :
    loadtoken (initState QPERFECT_CLOUD) noopServer
        (some (JVal.obj [("url", JVal.s "https://other.example/api"), ("token", JVal.s "tok")]))
      = (Except.error (PyError.connectionError "Failed to read token file."),
          initState QPERFECT_CLOUD, []) :=
  C4_theorem (initState QPERFECT_CLOUD) noopServer
    [("url", JVal.s "https://other.example/api"), ("token", JVal.s "tok")] (by decide)

/-- On a 200 refresh response whose body carries both token fields, the state
after `refresh` holds exactly the returned pair (whatever the subsequent
user-limits fetch does). -/
theorem refresh_tokens_of_fields (s : ConnState) (server : Server) (tv rv : JVal)
    (h200 : (server (refreshCall s)).status = 200)
    (htok : pySubscript (server (refreshCall s)).body "token" = Except.ok tv)
    (hrtok : pySubscript (server (refreshCall s)).body "refreshToken" = Except.ok rv) :
    (refresh s server).2.1.access_token = some tv
  ∧ (refresh s server).2.1.refresh_token = some rv := by
  unfold refresh
  simp only [h200, htok, hrtok, ne_eq, not_true_eq_false, if_false, ite_false]
  constructor
  · split
    · rename_i e s4 t heq
      have h2 := updateUserLimits_access_token
        (updateSessionHeaders { s with access_token := some tv, refresh_token := some rv }) server
      rw [heq] at h2
      exact h2
    · rename_i b s4 t heq
      have h2 := updateUserLimits_access_token
        (updateSessionHeaders { s with access_token := some tv, refresh_token := some rv }) server
      rw [heq] at h2
      exact h2
  · split
    · rename_i e s4 t heq
      have h2 := updateUserLimits_refresh_token
        (updateSessionHeaders { s with access_token := some tv, refresh_token := some rv }) server
      rw [heq] at h2
      exact h2
    · rename_i b s4 t heq
      have h2 := updateUserLimits_refresh_token
        (updateSessionHeaders { s with access_token := some tv, refresh_token := some rv }) server
      rw [heq] at h2
      exact h2

/-- On a 200 sign-in response whose body carries both token fields, the state
after `_weblogin` holds exactly the returned pair. -/
theorem weblogin_tokens_of_fields (s : ConnState) (server : Server) (tv rv : JVal)
    (h200 : (server (signinCall s)).status = 200)
    (htok : pySubscript (server (signinCall s)).body "token" = Except.ok tv)
    (hrtok : pySubscript (server (signinCall s)).body "refreshToken" = Except.ok rv) :
    (weblogin s server).2.1.access_token = some tv
  ∧ (weblogin s server).2.1.refresh_token = some rv := by
  unfold weblogin
  simp only [h200, htok, hrtok, ne_eq, not_true_eq_false, if_false, ite_false]
  constructor
  · split
    · rename_i e s4 t heq
      have h2 := updateUserLimits_access_token
        (updateSessionHeaders { s with access_token := some tv, refresh_token := some rv }) server
      rw [heq] at h2
      exact h2
    · rename_i b s4 t heq
      have h2 := updateUserLimits_access_token
        (updateSessionHeaders { s with access_token := some tv, refresh_token := some rv }) server
      rw [heq] at h2
      exact h2
  · split
    · rename_i e s4 t heq
      have h2 := updateUserLimits_refresh_token
        (updateSessionHeaders { s with access_token := some tv, refresh_token := some rv }) server
      rw [heq] at h2
      exact h2
    · rename_i b s4 t heq
      have h2 := updateUserLimits_refresh_token
        (updateSessionHeaders { s with access_token := some tv, refresh_token := some rv }) server
      rw [heq] at h2
      exact h2

/-- A state holding an older credential pair, as before a periodic refresh. -/
def stalePairState : ConnState :=
  { url := QPERFECT_CLOUD
    refresher_task := TaskRef.alive
    refresher_stop := false
    access_token := some (JVal.s "old-a")
    refresh_token := some (JVal.s "old-r")
    authHeader := some "Bearer old-a"
    user_limits := none }

/-- A refresh endpoint answering 200 with a body that carries `token` but
lacks `refreshToken`. -/
def halfPairServer : Server := fun c =>
  if c.path = QPERFECT_CLOUD ++ "/access-token" then
    { status := 200, headers := [], body := JVal.obj [("token", JVal.s "new-a")], content := "" }
  else
    { status := 200, headers := [], body := JVal.obj [], content := "" }

/-- Claim C3 (counterexample): there is an execution that leaves the store
with only one of the two fields updated.  When the refresh endpoint answers
200 with `token` present but `refreshToken` absent, `refresh` assigns the new
access token and then raises KeyError on `tokens["refreshToken"]`, leaving
the new access token paired with the stale refresh token. -/
theorem C3_counterexample :
    (refresh stalePairState halfPairServer).1 = Except.error (PyError.keyError "refreshToken")
  ∧ (refresh stalePairState halfPairServer).2.1.access_token = some (JVal.s "new-a")
  ∧ (refresh stalePairState halfPairServer).2.1.refresh_token = some (JVal.s "old-r") :=
  ⟨rfl, rfl, rfl⟩

/-- Claim C3 (amended): after every sign-in or token-refresh call whose 200
response carries both fields, the credential store holds exactly the returned
pair, written together in the single lock-held section of the source; the
unqualified no-partial-update guarantee fails only when a 200 response
carries `token` without `refreshToken`, where the KeyError is raised after
the access token was already assigned. -/
theorem C3_theorem (s : ConnState) (server : Server) (tv rv : JVal) :
    ((server (refreshCall s)).status = 200 →
      pySubscript (server (refreshCall s)).body "token" = Except.ok tv →
      pySubscript (server (refreshCall s)).body "refreshToken" = Except.ok rv →
      (refresh s server).2.1.access_token = some tv
        ∧ (refresh s server).2.1.refresh_token = some rv)
  ∧ ((server (signinCall s)).status = 200 →
      pySubscript (server (signinCall s)).body "token" = Except.ok tv →
      pySubscript (server (signinCall s)).body "refreshToken" = Except.ok rv →
      (weblogin s server).2.1.access_token = some tv
        ∧ (weblogin s server).2.1.refresh_token = some rv) :=
  ⟨fun h200 htok hrtok => refresh_tokens_of_fields s server tv rv h200 htok hrtok,
   fun h200 htok hrtok => weblogin_tokens_of_fields s server tv rv h200 htok hrtok⟩

/-- A server answering both the refresh and the sign-in endpoint with a full
token pair, and every other endpoint with an empty 200. -/
def fullPairServer : Server := fun c =>
  if c.method == Method.post
      && (c.path == QPERFECT_CLOUD ++ "/access-token"
        || c.path == QPERFECT_CLOUD ++ "/sign-in") then
    { status := 200, headers := []
      body := JVal.obj [("token", JVal.s "at-1"), ("refreshToken", JVal.s "rt-2")]
      content := "" }
  else
    { status := 200, headers := [], body := JVal.obj [], content := "" }

/-- Witness for C3: a concrete refresh and a concrete sign-in both leave
exactly the pair returned by the server in the store. -/
theorem C3_witness :
    ((refresh stalePairState fullPairServer).2.1.access_token = some (JVal.s "at-1")
      ∧ (refresh stalePairState fullPairServer).2.1.refresh_token = some (JVal.s "rt-2"))
  ∧ ((weblogin (initState QPERFECT_CLOUD) fullPairServer).2.1.access_token = some (JVal.s "at-1")
      ∧ (weblogin (initState QPERFECT_CLOUD) fullPairServer).2.1.refresh_token
          = some (JVal.s "rt-2")) :=
  ⟨(C3_theorem stalePairState fullPairServer (JVal.s "at-1") (JVal.s "rt-2")).1 rfl rfl rfl,
   (C3_theorem (initState QPERFECT_CLOUD) fullPairServer (JVal.s "at-1") (JVal.s "rt-2")).2
     rfl rfl rfl⟩

/-- Equation form of access-token preservation by `__updateUserLimits`. -/
theorem updateUserLimits_eq_access (s s4 : ConnState) (server : Server)
    (r : Except PyError Unit) (t : List NetCall)
    (heq : updateUserLimits s server = (r, s4, t)) :
    s4.access_token = s.access_token := by
  have h2 := updateUserLimits_access_token s server
  rw [heq] at h2
  exact h2

/-- A refresh that returned normally has stored a (fresh) access token. -/
theorem refresh_ok_access (s1 s2 : ConnState) (server : Server) (b : Bool) (t : List NetCall)
    (heq : refresh s1 server = (Except.ok b, s2, t)) :
    s2.access_token.isSome = true := by
  unfold refresh at heq
  dsimp only at heq
  split at heq
  · simp at heq
  · split at heq
    · simp at heq
    · rename_i tok htok
      split at heq
      · simp at heq
      · rename_i rtok hrtok
        split at heq
        · simp at heq
        · rename_i b2 s4 t4 hul
          have hacc := updateUserLimits_eq_access _ _ server _ _ hul
          simp only [Prod.mk.injEq] at heq
          obtain ⟨-, hs, -⟩ := heq
          rw [← hs, hacc]
          simp [updateSessionHeaders]

/-- A sign-in that returned normally leaves the session open: the final state
is `startRefresher` of a state holding the fresh access token. -/
theorem weblogin_ok_isOpen (s1 s2 : ConnState) (server : Server) (t : List NetCall)
    (heq : weblogin s1 server = (Except.ok (), s2, t)) :
    isOpen s2 = true := by
  unfold weblogin at heq
  dsimp only at heq
  split at heq
  · split at heq <;> simp at heq
  · split at heq
    · simp at heq
    · rename_i tok htok
      split at heq
      · simp at heq
      · rename_i rtok hrtok
        split at heq
        · simp at heq
        · rename_i b2 s4 t4 hul
          have hacc := updateUserLimits_eq_access _ _ server _ _ hul
          simp only [Prod.mk.injEq] at heq
          obtain ⟨-, hs, -⟩ := heq
          rw [← hs]
          simp [isOpen, startRefresher, hacc, updateSessionHeaders]

/-- Projection form of `weblogin_ok_isOpen`. -/
theorem weblogin_ok_isOpen_proj (s1 : ConnState) (server : Server)
    (h : (weblogin s1 server).1 = Except.ok ()) :
    isOpen (weblogin s1 server).2.1 = true :=
  weblogin_ok_isOpen s1 (weblogin s1 server).2.1 server (weblogin s1 server).2.2
    (by rw [← h])

/-- A `connectToken` that returned normally leaves the session open. -/
theorem connectToken_ok_isOpen (s : ConnState) (server : Server) (token : JVal)
    (h : (connectToken s server token).1 = Except.ok ()) :
    isOpen (connectToken s server token).2.1 = true := by
  unfold connectToken at h ⊢
  dsimp only at h ⊢
  split at h
  · simp at h
  · rename_i b s2 t hr
    split at h
    · simp at h
    · rename_i b2 s4 t2 hul
      have hacc2 := refresh_ok_access _ _ server _ _ hr
      have hacc3 := updateUserLimits_eq_access _ _ server _ _ hul
      simp [isOpen, startRefresher, hacc3, updateSessionHeaders, hacc2]

/-- Claim C2 (counterexample): immediately after construction — before any
connect — the legacy connection.py `isOpen()` does not return false: it
raises AttributeError, because `self.refresher_task.is_alive()` is evaluated
eagerly while the task is still None. -/
theorem C2_counterexample :
    isOpenLegacy (initState QPERFECT_CLOUD)
      = Except.error (PyError.attributeError "NoneType object has no attribute is_alive") := rfl

/-- Claim C2 (amended): for the current variant (mimiqconnection.py),
isOpen() is total and true exactly when the refresher task is alive and the
access credential is non-null; it is false immediately after construction,
true immediately after any successful connect flow (token or password) and
false immediately after close().  The legacy connection.py variant computes
the same conjunction but raises AttributeError when called before any
connect. -/
theorem C2_theorem :
    (∀ s : ConnState,
      isOpen s = true ↔ (s.refresher_task = TaskRef.alive ∧ s.access_token.isSome = true))
  ∧ (∀ url : String, isOpen (initState url) = false)
  ∧ (∀ (s : ConnState) (server : Server) (token : JVal),
      (connectToken s server token).1 = Except.ok () →
      isOpen (connectToken s server token).2.1 = true)
  ∧ (∀ (s : ConnState) (server : Server),
      (connectUser s server).1 = Except.ok () →
      isOpen (connectUser s server).2.1 = true)
  ∧ (∀ s : ConnState, isOpen (close s).2 = false) := by
  refine ⟨?_, ?_, ?_, ?_, ?_⟩
  · intro s
    rcases s with ⟨url, task, stop, atok, rtok, ah, ul⟩
    cases task <;> simp [isOpen]
  · intro url
    rfl
  · intro s server token h
    exact connectToken_ok_isOpen s server token h
  · intro s server h
    unfold connectUser at h ⊢
    exact weblogin_ok_isOpen_proj _ server h
  · intro s
    simp [close, isOpen]

/-- Witness for C2: the fresh session is closed; a concrete successful token
connect and a concrete successful password connect each leave it open; close
leaves it closed. -/
theorem C2_witness :
    isOpen (initState QPERFECT_CLOUD) = false
  ∧ isOpen (connectToken (initState QPERFECT_CLOUD) fullPairServer (JVal.s "rt-1")).2.1 = true
  ∧ isOpen (connectUser (initState QPERFECT_CLOUD) fullPairServer).2.1 = true
  ∧ isOpen (close openState).2 = false :=
  ⟨C2_theorem.2.1 QPERFECT_CLOUD,
   C2_theorem.2.2.1 (initState QPERFECT_CLOUD) fullPairServer (JVal.s "rt-1") rfl,
   C2_theorem.2.2.2.1 (initState QPERFECT_CLOUD) fullPairServer rfl,
   C2_theorem.2.2.2.2 openState⟩

/-- When every index in the list downloads successfully, the download loop
returns the filenames in list order and issues exactly one GET per index, in
list order. -/
theorem dlLoop_all_ok (s : ConnState) (server : Server) (req source : String)
    (f : Nat → String) :
    ∀ l : List Nat,
      (∀ i ∈ l, downloadFile s server req i source
        = (Except.ok (f i), [fileCall s req i source])) →
      dlLoop s server req source l
        = (Except.ok (l.map f), l.map (fun i => fileCall s req i source))
  | [], _ => rfl
  | idx :: rest, h => by
    have hhd := h idx (List.mem_cons_self idx rest)
    have htl := dlLoop_all_ok s server req source f rest
      (fun i hi => h i (List.mem_cons_of_mem idx hi))
    simp only [dlLoop, hhd, htl]
    rfl

/-- When every index of a prefix downloads successfully and the next index
fails, the download loop stops there: the failure is returned and no GET is
issued for any later index. -/
theorem dlLoop_error_after (s : ConnState) (server : Server) (req source : String)
    (f : Nat → String) (k : Nat) (e : PyError)
    (hfail : downloadFile s server req k source = (Except.error e, [fileCall s req k source])) :
    ∀ l l2 : List Nat,
      (∀ i ∈ l, downloadFile s server req i source
        = (Except.ok (f i), [fileCall s req i source])) →
      dlLoop s server req source (l ++ k :: l2)
        = (Except.error e,
            l.map (fun i => fileCall s req i source) ++ [fileCall s req k source])
  | [], l2, _ => by
    rw [List.nil_append]
    simp only [dlLoop, hfail]
    rfl
  | idx :: rest, l2, h => by
    have hhd := h idx (List.mem_cons_self idx rest)
    have htl := dlLoop_error_after s server req source f k e hfail rest l2
      (fun i hi => h i (List.mem_cons_of_mem idx hi))
    rw [List.cons_append]
    simp only [dlLoop, hhd, htl]
    rfl

/-- Reduction of `downloadFiles` to its download loop once the metadata fetch
succeeded and reported the count `n`. -/
theorem downloadFiles_to_dlLoop (s : ConnState) (server : Server) (req source : String)
    (fs : List (String × JVal)) (n : Nat)
    (hauth : s.access_token.isSome = true)
    (hinfo : requestInfo s server req = (Except.ok (JVal.obj fs), [infoCall s req]))
    (hn : jLookup fs (sourceFieldName source) = some (JVal.n (Int.ofNat n))) :
    downloadFiles s server req source
      = ((dlLoop s server req source (List.range n)).1,
          infoCall s req :: (dlLoop s server req source (List.range n)).2) := by
  unfold downloadFiles
  rw [checkAuth_of_isSome s hauth, hinfo]
  simp [pyGetD, jGetD, hn]

/-- Claim C5 (amended): when the fetched metadata reports a file count of n,
`downloadFiles` issues exactly n per-index GETs in increasing index order
0..n-1 after the metadata GET and returns the n extracted filenames; if the
k-th download fails, no download with index above k is attempted; and a
response lacking the Content-Disposition header fails the download with a
python TypeError (`re.findall` applied to None), not with the library's
typed ConnectionError that realizes the spec's ProtocolError. -/
theorem C5_theorem :
    (∀ (s : ConnState) (server : Server) (req source : String)
        (fs : List (String × JVal)) (n : Nat) (f : Nat → String),
      s.access_token.isSome = true →
      requestInfo s server req = (Except.ok (JVal.obj fs), [infoCall s req]) →
      jLookup fs (sourceFieldName source) = some (JVal.n (Int.ofNat n)) →
      (∀ i, i < n → downloadFile s server req i source
        = (Except.ok (f i), [fileCall s req i source])) →
      downloadFiles s server req source
        = (Except.ok ((List.range n).map f),
            infoCall s req :: (List.range n).map (fun i => fileCall s req i source)))
  ∧ (∀ (s : ConnState) (server : Server) (req source : String)
        (fs : List (String × JVal)) (n k : Nat) (f : Nat → String) (e : PyError),
      s.access_token.isSome = true →
      requestInfo s server req = (Except.ok (JVal.obj fs), [infoCall s req]) →
      jLookup fs (sourceFieldName source) = some (JVal.n (Int.ofNat n)) →
      k < n →
      (∀ i, i < k → downloadFile s server req i source
        = (Except.ok (f i), [fileCall s req i source])) →
      downloadFile s server req k source = (Except.error e, [fileCall s req k source]) →
      downloadFiles s server req source
        = (Except.error e,
            infoCall s req :: (List.range (k + 1)).map (fun i => fileCall s req i source)))
  ∧ (∀ (s : ConnState) (server : Server) (req source : String) (index : Nat),
      s.access_token.isSome = true →
      (server (fileCall s req index source)).status < 300 →
      (server (fileCall s req index source)).headers.lookup "Content-Disposition" = none →
      downloadFile s server req index source
        = (Except.error (PyError.typeError "expected string or bytes-like object"),
            [fileCall s req index source])) := by
  refine ⟨?_, ?_, ?_⟩
  · intro s server req source fs n f hauth hinfo hn hoks
    rw [downloadFiles_to_dlLoop s server req source fs n hauth hinfo hn,
      dlLoop_all_ok s server req source f (List.range n)
        (fun i hi => hoks i (List.mem_range.mp hi))]
  · intro s server req source fs n k f e hauth hinfo hn hk hoks hfail
    rw [downloadFiles_to_dlLoop s server req source fs n hauth hinfo hn]
    have hdecomp : List.range n = List.range k ++ k :: (List.range (n - (k + 1))).map (k + 1 + .) := by
      conv_lhs => rw [show n = (k + 1) + (n - (k + 1)) by omega]
      rw [List.range_add, List.range_succ, List.append_assoc, List.singleton_append]
    rw [hdecomp, dlLoop_error_after s server req source f k e hfail (List.range k)
      ((List.range (n - (k + 1))).map (k + 1 + .))
      (fun i hi => hoks i (List.mem_range.mp hi))]
    rw [List.range_succ, List.map_append]
    rfl
  · intro s server req source index hauth hst hlk
    unfold downloadFile
    rw [checkAuth_of_isSome s hauth]
    have hnle : ¬300 ≤ (server (fileCall s req index source)).status := by omega
    simp [hnle, hlk]

/-- A server for job `jid` with three result files whose second file response
lacks the Content-Disposition header. -/
def dlServer : Server := fun c =>
  if c.path = QPERFECT_CLOUD ++ "/request/jid" then
    { status := 200, headers := []
      body := JVal.obj [("numberOfResultedFiles", JVal.n 3)], content := "" }
  else if c.path = QPERFECT_CLOUD ++ "/files/jid/0?source=results" then
    { status := 200, headers := [("Content-Disposition", "attachment; filename=\"res0.bin\"")]
      body := JVal.obj [], content := "d0" }
  else if c.path = QPERFECT_CLOUD ++ "/files/jid/1?source=results" then
    { status := 200, headers := [], body := JVal.obj [], content := "d1" }
  else
    { status := 200, headers := [("Content-Disposition", "attachment; filename=\"res2.bin\"")]
      body := JVal.obj [], content := "d2" }

/-- Claim C5 (counterexample): with three reported result files and the
second response lacking Content-Disposition, the download aborts before
index 2 as claimed, but the failure is a python TypeError — `re.findall`
applied to the None returned by `headers.get` — not the library's typed
ConnectionError that realizes the spec's ProtocolError. -/
theorem C5_counterexample :
    (downloadFiles openState dlServer "jid" "results").1
      = Except.error (PyError.typeError "expected string or bytes-like object")
  ∧ (downloadFiles openState dlServer "jid" "results").2
      = [infoCall openState "jid", fileCall openState "jid" 0 "results",
          fileCall openState "jid" 1 "results"] := ⟨rfl, rfl⟩

/-- A server for job `jid` with three well-formed result files. -/
def dlOkServer : Server := fun c =>
  if c.path = QPERFECT_CLOUD ++ "/request/jid" then
    { status := 200, headers := []
      body := JVal.obj [("numberOfResultedFiles", JVal.n 3)], content := "" }
  else if c.path = QPERFECT_CLOUD ++ "/files/jid/0?source=results" then
    { status := 200, headers := [("Content-Disposition", "attachment; filename=\"res0.bin\"")]
      body := JVal.obj [], content := "d0" }
  else if c.path = QPERFECT_CLOUD ++ "/files/jid/1?source=results" then
    { status := 200, headers := [("Content-Disposition", "attachment; filename=\"res1.bin\"")]
      body := JVal.obj [], content := "d1" }
  else
    { status := 200, headers := [("Content-Disposition", "attachment; filename=\"res2.bin\"")]
      body := JVal.obj [], content := "d2" }

/-- The filenames served by `dlOkServer`. -/
def cName : Nat → String := fun i =>
  if i = 0 then "res0.bin" else if i = 1 then "res1.bin" else "res2.bin"

/-- Witness for C5: three successful downloads happen in index order 0,1,2
and return the three filenames; against the half-broken server the loop
fails at index 1 with the TypeError and issues no third GET. -/
theorem C5_witness :
    downloadFiles openState dlOkServer "jid" "results"
      = (Except.ok ["res0.bin", "res1.bin", "res2.bin"],
          [infoCall openState "jid", fileCall openState "jid" 0 "results",
            fileCall openState "jid" 1 "results", fileCall openState "jid" 2 "results"])
  ∧ downloadFiles openState dlServer "jid" "results"
      = (Except.error (PyError.typeError "expected string or bytes-like object"),
          [infoCall openState "jid", fileCall openState "jid" 0 "results",
            fileCall openState "jid" 1 "results"])
  ∧ downloadFile openState dlServer "jid" 1 "results"
      = (Except.error (PyError.typeError "expected string or bytes-like object"),
          [fileCall openState "jid" 1 "results"]) := by
  refine ⟨?_, ?_, ?_⟩
  · exact C5_theorem.1 openState dlOkServer "jid" "results"
      [("numberOfResultedFiles", JVal.n 3)] 3 cName rfl rfl rfl
      (by intro i hi; interval_cases i <;> rfl)
  · exact C5_theorem.2.1 openState dlServer "jid" "results"
      [("numberOfResultedFiles", JVal.n 3)] 3 1 cName
      (PyError.typeError "expected string or bytes-like object")
      rfl rfl rfl (by omega) (by intro i hi; interval_cases i; rfl) rfl
  · exact C5_theorem.2.2 openState dlServer "jid" "results" 1 rfl (by decide) rfl

/-- A server that answers 500 to everything. -/
def failServer : Server := fun _ =>
  { status := 500, headers := [], body := JVal.obj [], content := "" }

/-- Claim C1 (counterexample): with two refresh intervals scheduled and the
token-refresh endpoint answering 500, the MimiqConnection refresher performs
exactly one refresh attempt and the loop terminates with the ConnectionError
escaping the thread — the failure is not swallowed and no further attempt
happens at the next interval. -/
theorem C1_counterexample :
    (refresherMain stalePairState [failServer, failServer]).1
      = LoopOutcome.crashed (PyError.connectionError
          "Failed to refresh the access token. Server responded with 500")
  ∧ (refresherMain stalePairState [failServer, failServer]).2.2
      = [refreshCall stalePairState] := ⟨rfl, rfl⟩

/-- The PlanQK refresher swallows token-renewal failures: with the gateway
failing at every scheduled interval, the loop performs one attempt per
interval, keeps its state, and is still running afterwards. -/
theorem planqk_loop_swallow (ps : PlanqkState)
    (hstop : ps.refresher_stop = false) (tk : JWTtoken) (htk : ps.token = some tk) :
    ∀ servers : List Server,
      (∀ server ∈ servers, (server planqkTokenCall).status ≠ 200) →
      planqkRefresherMain ps servers
        = (LoopOutcome.running, ps, servers.map (fun _ => planqkTokenCall))
  | [], _ => rfl
  | server :: rest, h => by
    have hhd := h server (List.mem_cons_self server rest)
    have htl := planqk_loop_swallow ps hstop tk htk rest
      (fun sv hm => h sv (List.mem_cons_of_mem server hm))
    have hfail : getPlanqkToken server
        = (Except.error (PyError.connectionError
            ("Failed to get PlanQK token. Server responded with "
              ++ toString (server planqkTokenCall).status)), [planqkTokenCall]) := by
      unfold getPlanqkToken
      dsimp only
      rw [if_pos hhd]
    simp only [planqkRefresherMain, htk, hstop, hfail, htl]
    rfl

/-- Claim C1 (amended): in the MimiqConnection refresher loop a failed
periodic refresh is not swallowed — the ConnectionError raised by `refresh`
escapes `__refresherMain` and terminates the refresher thread, so no further
attempt is made at subsequent intervals; the logged-and-swallowed,
keep-looping behaviour holds for the PlanqkConnection refresher, whose
renewal is wrapped in try/except; in both loops the stop flag set by
`close()` ends the loop before any further network call. -/
theorem C1_theorem :
    (∀ (s : ConnState) (server : Server) (rest : List Server) (e : PyError)
        (s1 : ConnState) (t1 : List NetCall),
      s.refresher_stop = false →
      refresh s server = (Except.error e, s1, t1) →
      refresherMain s (server :: rest) = (LoopOutcome.crashed e, s1, t1))
  ∧ (∀ (ps : PlanqkState) (tk : JWTtoken) (servers : List Server),
      ps.refresher_stop = false →
      ps.token = some tk →
      (∀ server ∈ servers, (server planqkTokenCall).status ≠ 200) →
      planqkRefresherMain ps servers
        = (LoopOutcome.running, ps, servers.map (fun _ => planqkTokenCall)))
  ∧ (∀ (s : ConnState) (server : Server) (rest : List Server),
      s.refresher_stop = true →
      refresherMain s (server :: rest) = (LoopOutcome.exited, s, [])) := by
  refine ⟨?_, ?_, ?_⟩
  · intro s server rest e s1 t1 hstop hr
    simp only [refresherMain, hstop, hr]
    rfl
  · intro ps tk servers hstop htk hfails
    exact planqk_loop_swallow ps hstop tk htk servers hfails
  · intro s server rest hstop
    simp only [refresherMain, hstop]
    rfl

/-- The JWT token held by the steady-state PlanQK session below. -/
def planqkTok : JWTtoken :=
  { access_token := JVal.s "pa"
    scope := JVal.s "production"
    token_type := JVal.s "Bearer"
    expires_in := JVal.n 3600 }

/-- A PlanQK session in its steady state: token installed, refresher alive. -/
def planqkRunState : PlanqkState :=
  { url := PLANQK_API
    token := some planqkTok
    refresher_stop := false
    refresher_task := TaskRef.alive
    authHeader := some "Bearer pa" }

/-- Witness for C1: one failing interval crashes the MimiqConnection loop;
two failing intervals leave the PlanQK loop running with two attempts; a set
stop flag ends the MimiqConnection loop with no call. -/
theorem C1_witness :
    refresherMain stalePairState [failServer]
      = (LoopOutcome.crashed (PyError.connectionError
          "Failed to refresh the access token. Server responded with 500"),
          stalePairState, [refreshCall stalePairState])
  ∧ planqkRefresherMain planqkRunState [failServer, failServer]
      = (LoopOutcome.running, planqkRunState, [planqkTokenCall, planqkTokenCall])
  ∧ refresherMain { stalePairState with refresher_stop := true } [failServer]
      = (LoopOutcome.exited, { stalePairState with refresher_stop := true }, []) := by
  refine ⟨?_, ?_, ?_⟩
  · exact C1_theorem.1 stalePairState failServer []
      (PyError.connectionError "Failed to refresh the access token. Server responded with 500")
      stalePairState [refreshCall stalePairState] rfl rfl
  · refine C1_theorem.2.1 planqkRunState planqkTok [failServer, failServer] rfl rfl ?_
    intro sv hm
    rcases List.mem_cons.mp hm with h | hm2
    · rw [h]; decide
    · rw [List.mem_singleton.mp hm2]; decide
  · exact C1_theorem.2.2 { stalePairState with refresher_stop := true } failServer [] rfl
